import Mathlib

/-!
Verification development for the BACnet discovery/polling worker
(`src/worker/mqtt_publisher.py`) and the MQTT → TimescaleDB sink bridge
(`src/telegraf/mqtt_to_timescaledb.py`).

The Python source is shallowly embedded: pure computations become Lean
functions, Python exceptions become `Except`, machine reads of wall-clock
time become explicit `ℚ` parameters, and the surrounding I/O (sockets,
database) is abstracted into oracle parameters (attempt outcomes, insert
success flags) that the embedded control flow consumes exactly as the
source does.
-/

namespace BacPipes

/-! ## Host value model

Python host values that the worker manipulates.  Floats are kept
symbolic: a finite float is represented by the rational it denotes,
the non-JSON-safe specials (`nan`, `inf`, `-inf`) are explicit
constructors, and the results of `struct.unpack` of IEEE-754 payloads
are kept as the tagged big-endian byte strings they were decoded from
(bit-level float semantics is not interpreted). -/

inductive PyFloat where
  | ofRat (q : ℚ)
  | nan
  | inf
  | ninf
  | ieee32be (bytes : List Nat)
  | ieee64be (bytes : List Nat)
deriving DecidableEq, Repr

/-- A Python primitive value: `int`, `float`, `bool` or `str`. -/
inductive PyVal where
  | int (n : Int)
  | float (f : PyFloat)
  | bool (b : Bool)
  | str (s : String)
deriving DecidableEq, Repr

/-! ## BACnet client retry policy (`read_with_retry`, lines 346-411)

The environment is an oracle `Nat → AttemptOutcome` giving, for each
attempt index, what `await asyncio.wait_for(app.request …)` does. -/

/-- Retry configuration of `MqttPublisher.__init__` (lines 82-84). -/
structure RetryConfig where
  max_retries : Nat
  base_timeout : Nat
  exponential_backoff : Bool
deriving DecidableEq, Repr

/-- `max_retries = 3`, `base_timeout = 6000`, `exponential_backoff = True`. -/
def defaultRetryConfig : RetryConfig := ⟨3, 6000, true⟩

/-- Timeout used on a given attempt (lines 374-377):
`base_timeout * 2 ** (attempt - 1)` for a backoff attempt past the first,
else `base_timeout`. -/
def attempt_timeout (cfg : RetryConfig) (attempt : Nat) : Nat :=
  if cfg.exponential_backoff = true ∧ 0 < attempt then
    cfg.base_timeout * 2 ^ (attempt - 1)
  else
    cfg.base_timeout

/-- What one loop iteration of `read_with_retry` observes from the network. -/
inductive AttemptOutcome where
  /-- a truthy response carrying `propertyValue`; `extract_value` gave `v`
  and the function returns it (lines 394-397) -/
  | reply (v : Option PyVal)
  /-- a falsy response, or one without `propertyValue`: the loop just
  continues, with no sleep (fall-through after line 394) -/
  | noReply
  /-- `asyncio.TimeoutError` (line 399) -/
  | timeout
  /-- any other exception (line 404) -/
  | error
deriving DecidableEq, Repr

/-- Observable events of one `read_with_retry` call. -/
inductive RetryEvent where
  /-- a `ReadProperty` request sent on attempt `idx` with timeout `timeoutMs` -/
  | attempt (idx : Nat) (timeoutMs : Nat)
  /-- `await asyncio.sleep(0.5)` (lines 402/407), in milliseconds -/
  | sleep (ms : Nat)
deriving DecidableEq, Repr

/-- The `for attempt in range(self.max_retries + 1)` loop (lines 371-411),
unrolled structurally: `fuel` is the number of loop iterations left.
Returns the value returned by the function together with the trace of
requests and sleeps. -/
def read_retry_loop (cfg : RetryConfig) (out : Nat → AttemptOutcome) :
    Nat → Nat → Option PyVal × List RetryEvent
  | _, 0 => (none, [])
  | attempt, fuel + 1 =>
    let t := attempt_timeout cfg attempt
    match out attempt with
    | .reply v => (v, [.attempt attempt t])
    | .noReply =>
      let r := read_retry_loop cfg out (attempt + 1) fuel
      (r.1, .attempt attempt t :: r.2)
    | .timeout =>
      let sleeps := if attempt < cfg.max_retries then [RetryEvent.sleep 500] else []
      let r := read_retry_loop cfg out (attempt + 1) fuel
      (r.1, .attempt attempt t :: (sleeps ++ r.2))
    | .error =>
      let sleeps := if attempt < cfg.max_retries then [RetryEvent.sleep 500] else []
      let r := read_retry_loop cfg out (attempt + 1) fuel
      (r.1, .attempt attempt t :: (sleeps ++ r.2))

/-- `read_with_retry` (lines 346-411): run the loop from attempt 0 with
`max_retries + 1` iterations; falling off the loop returns `None`
(line 411). -/
def read_with_retry (cfg : RetryConfig) (out : Nat → AttemptOutcome) :
    Option PyVal × List RetryEvent :=
  read_retry_loop cfg out 0 (cfg.max_retries + 1)

/-- Number of `ReadProperty` requests in a trace. -/
def attemptCount : List RetryEvent → Nat
  | [] => 0
  | .attempt _ _ :: l => attemptCount l + 1
  | .sleep _ :: l => attemptCount l

lemma attemptCount_append (l₁ l₂ : List RetryEvent) :
    attemptCount (l₁ ++ l₂) = attemptCount l₁ + attemptCount l₂ := by
  induction l₁ with
  | nil => simp [attemptCount]
  | cons e l ih =>
    cases e with
    | attempt a t => simp [attemptCount, ih]; omega
    | sleep m => simp [attemptCount, ih]

/-- Each loop iteration makes at most one request. -/
lemma read_retry_loop_attemptCount_le (cfg : RetryConfig) (out : Nat → AttemptOutcome) :
    ∀ fuel attempt, attemptCount (read_retry_loop cfg out attempt fuel).2 ≤ fuel := by
  intro fuel
  induction fuel with
  | zero => intro attempt; simp [read_retry_loop, attemptCount]
  | succ n ih =>
    intro attempt
    simp only [read_retry_loop]
    cases h : out attempt with
    | reply v => simp [attemptCount]
    | noReply =>
      have h2 := ih (attempt + 1)
      simp only [attemptCount]
      omega
    | timeout =>
      have h2 := ih (attempt + 1)
      have hs : attemptCount (if attempt < cfg.max_retries
          then [RetryEvent.sleep 500] else []) = 0 := by
        split <;> rfl
      simp only [attemptCount, attemptCount_append, hs]
      omega
    | error =>
      have h2 := ih (attempt + 1)
      have hs : attemptCount (if attempt < cfg.max_retries
          then [RetryEvent.sleep 500] else []) = 0 := by
        split <;> rfl
      simp only [attemptCount, attemptCount_append, hs]
      omega

/-- C1: with the shipped configuration, when every attempt times out or
errors, `read_with_retry` makes exactly 4 attempts with timeouts
6000 / 6000 / 12000 / 24000 ms, a 500 ms sleep between consecutive
attempts, and returns `None`; and no call ever makes more than
`max_retries + 1 = 4` attempts. -/
theorem read_with_retry_backoff_and_failure
    (out : Nat → AttemptOutcome)
    (h : ∀ i, i ≤ 3 → out i = .timeout ∨ out i = .error) :
    (read_with_retry defaultRetryConfig out).1 = none ∧
    (read_with_retry defaultRetryConfig out).2 =
      [.attempt 0 6000, .sleep 500, .attempt 1 6000, .sleep 500,
       .attempt 2 12000, .sleep 500, .attempt 3 24000] ∧
    ∀ g : Nat → AttemptOutcome,
      attemptCount (read_with_retry defaultRetryConfig g).2 ≤ 4 := by
  refine ⟨?_, ?_, ?_⟩
  · rcases h 0 (by norm_num) with h0 | h0 <;> rcases h 1 (by norm_num) with h1 | h1 <;>
      rcases h 2 (by norm_num) with h2 | h2 <;> rcases h 3 (by norm_num) with h3 | h3 <;>
      simp [read_with_retry, read_retry_loop, defaultRetryConfig, h0, h1, h2, h3,
        attempt_timeout]
  · rcases h 0 (by norm_num) with h0 | h0 <;> rcases h 1 (by norm_num) with h1 | h1 <;>
      rcases h 2 (by norm_num) with h2 | h2 <;> rcases h 3 (by norm_num) with h3 | h3 <;>
      simp [read_with_retry, read_retry_loop, defaultRetryConfig, h0, h1, h2, h3,
        attempt_timeout]
  · intro g
    exact read_retry_loop_attemptCount_le defaultRetryConfig g 4 0

/-- Witness for C1: all-timeout outcomes realize the hypothesis. -/
theorem read_with_retry_backoff_and_failure_witness :
    (∀ i, i ≤ 3 → (fun _ => AttemptOutcome.timeout) i = AttemptOutcome.timeout ∨
      (fun _ => AttemptOutcome.timeout) i = AttemptOutcome.error) ∧
    ((read_with_retry defaultRetryConfig (fun _ => AttemptOutcome.timeout)).1 = none ∧
     (read_with_retry defaultRetryConfig (fun _ => AttemptOutcome.timeout)).2 =
       [.attempt 0 6000, .sleep 500, .attempt 1 6000, .sleep 500,
        .attempt 2 12000, .sleep 500, .attempt 3 24000] ∧
     ∀ g : Nat → AttemptOutcome,
       attemptCount (read_with_retry defaultRetryConfig g).2 ≤ 4) :=
  ⟨fun _ _ => Or.inl rfl,
   read_with_retry_backoff_and_failure (fun _ => AttemptOutcome.timeout)
     (fun _ _ => Or.inl rfl)⟩

/-! ## Per-point scheduler (`poll_and_publish`, lines 696-797)

Wall-clock times (`time.time()` floats) and intervals are modelled as
rationals.  The per-point state is `point_last_poll[point_id]`, an
optional last-poll instant. -/

/-- `next_minute = math.ceil(current_time / 60) * 60` (line 709). -/
def next_minute (now : ℚ) : ℚ := (⌈now / 60⌉ : ℤ) * 60

/-- What `poll_and_publish` does with one point in one tick. -/
inductive PollAction where
  /-- first observation: initialized for minute alignment and skipped
  (lines 729-736) -/
  | initSkip
  /-- interval not yet elapsed: skipped (lines 742-745) -/
  | skip
  /-- a `read_with_retry` was issued (line 750) -/
  | read
deriving DecidableEq, Repr

/-- Counter increments `(total_reads, skipped_reads)` for one action. -/
def tickCounters : PollAction → Nat × Nat
  | .initSkip => (0, 1)
  | .skip => (0, 1)
  | .read => (1, 0)

/-- Per-point body of the polling loop (lines 724-797): given the stored
`point_last_poll` entry, the tick time `now`, the point's `pollInterval`
and whether the read (if issued) succeeded, return the action taken and
the new `point_last_poll` entry.
* no entry: `last = next_minute - interval`, skip (lines 729-736);
* `now - last < interval`: skip (lines 742-745);
* otherwise read; on success `point_last_poll[id] = current_time`
  (line 762), on failure the entry is unchanged. -/
def poll_point_step (lastPoll : Option ℚ) (now interval : ℚ) (readOk : Bool) :
    PollAction × Option ℚ :=
  match lastPoll with
  | none => (.initSkip, some (next_minute now - interval))
  | some last =>
    if now - last < interval then (.skip, some last)
    else if readOk then (.read, some now)
    else (.read, some last)

/-- The next-due instant the spec's scheduler state corresponds to:
a point is due iff `now - last ≥ interval`, i.e. iff
`now ≥ last + interval`. -/
def nextDueAt (last interval : ℚ) : ℚ := last + interval

/-- C2 counterexample: point with `pollInterval = 60`, `last_poll = 0`
(so `nextDueAt = 60`), tick at `now = 62` (due, and less than one
interval behind), successful read.  The code stores `last_poll = 62`,
so the new next-due time is `122`, which is neither
`nextDueAt + interval = 120` nor congruent to `nextDueAt` modulo the
interval. -/
theorem scheduler_advance_counterexample :
    poll_point_step (some 0) 62 60 true = (.read, some 62) ∧
    nextDueAt 0 60 ≤ 62 ∧
    62 - nextDueAt 0 60 < 60 ∧
    nextDueAt 62 60 = 122 ∧
    ¬ (nextDueAt 62 60 = nextDueAt 0 60 + 60 ∨
       ∃ k : ℤ, nextDueAt 62 60 - nextDueAt 0 60 = k * 60) := by
  refine ⟨?_, by norm_num [nextDueAt], by norm_num [nextDueAt],
    by norm_num [nextDueAt], ?_⟩
  · simp [poll_point_step]; norm_num
  · rintro (h | ⟨k, hk⟩)
    · norm_num [nextDueAt] at h
    · rw [show nextDueAt 62 60 - nextDueAt 0 60 = 62 by norm_num [nextDueAt]] at hk
      have hk' : (62 : ℤ) = k * 60 := by exact_mod_cast hk
      omega

/-- C2 amended: on a successful read of a due point, the code sets the
point's last-poll time to the tick time itself, so the new next-due
instant is `now + pollInterval` — the previous schedule's phase is not
preserved and no catch-up-suppression distinction exists. -/
theorem scheduler_advance_amended (last now interval : ℚ)
    (hdue : ¬ now - last < interval) :
    poll_point_step (some last) now interval true = (.read, some now) ∧
    nextDueAt now interval = now + interval := by
  constructor
  · simp [poll_point_step, hdue]
  · rfl

/-- Witness for the amended C2. -/
theorem scheduler_advance_amended_witness :
    (¬ (62 : ℚ) - 0 < 60) ∧
    (poll_point_step (some 0) 62 60 true = (.read, some 62) ∧
     nextDueAt 62 60 = 62 + 60) :=
  ⟨by norm_num, scheduler_advance_amended 0 62 60 (by norm_num)⟩

/-- C3: a point first observed at tick time `now` is skipped in that
tick (counted as skipped, no read issued), its stored state becomes
`next_minute - interval`, and with that state a later tick reads it
exactly when the tick time has reached the next minute boundary
`⌈now / 60⌉ * 60`. -/
theorem scheduler_first_observation (now interval : ℚ) :
    poll_point_step none now interval true =
      (.initSkip, some (next_minute now - interval)) ∧
    tickCounters (poll_point_step none now interval true).1 = (0, 1) ∧
    next_minute now = (⌈now / 60⌉ : ℤ) * 60 ∧
    ∀ now' : ℚ, ¬ now' - (next_minute now - interval) < interval ↔
      next_minute now ≤ now' := by
  refine ⟨rfl, rfl, rfl, fun now' => ?_⟩
  constructor
  · intro h; linarith [not_lt.mp h]
  · intro h; intro hlt; linarith

/-! ## String and number helpers shared by the codec -/

/-- Python's `needle in hay` substring test. -/
def containsSeq (hay needle : List Char) : Bool :=
  hay.tails.any fun t => needle.isPrefixOf t

def strContains (hay needle : String) : Bool :=
  containsSeq hay.toList needle.toList

/-- `"bacpypes3" in value_str and "object at" in value_str` (line 431). -/
def isOpaqueStr (s : String) : Bool :=
  strContains s "bacpypes3" && strContains s "object at"

def natOfDigits (cs : List Char) : Nat :=
  cs.foldl (fun n c => n * 10 + (c.toNat - 48)) 0

/-- `int(s)` on an already-stripped string, modelling the plain
`[sign]digits` literal forms. -/
def parseIntLit (s : String) : Option Int :=
  let core : List Char → Option Nat := fun cs =>
    if cs ≠ [] ∧ cs.all Char.isDigit then some (natOfDigits cs) else none
  match s.toList with
  | '-' :: rest => (core rest).map fun n => -(n : Int)
  | '+' :: rest => (core rest).map fun n => (n : Int)
  | cs => (core cs).map fun n => (n : Int)

/-- `float(s)` on an already-stripped string, modelling the
`[sign]digits[.digits]` literal forms (exponents and the `inf`/`nan`
words are not modelled). -/
def parseFloatLit (s : String) : Option ℚ :=
  let core : List Char → Option ℚ := fun cs =>
    match cs.splitOn '.' with
    | [a] =>
      if a ≠ [] ∧ a.all Char.isDigit then some (natOfDigits a : ℚ) else none
    | [a, b] =>
      if (a ≠ [] ∨ b ≠ []) ∧ a.all Char.isDigit ∧ b.all Char.isDigit then
        some ((natOfDigits a : ℚ) + (natOfDigits b : ℚ) / 10 ^ b.length)
      else none
    | _ => none
  match s.toList with
  | '-' :: rest => (core rest).map fun q => -q
  | '+' :: rest => core rest
  | cs => core cs

/-- Lines 495-499: `float(value_clean)` when the cleaned string contains
a dot, else `int(value_clean)`. -/
def pyParseNumber (c : String) : Option PyVal :=
  if c.contains '.' then (parseFloatLit c).map fun q => .float (.ofRat q)
  else (parseIntLit c).map .int

/-- `int.from_bytes(data, byteorder='big')` (unsigned). -/
def beU (l : List Nat) : Nat := l.foldl (fun a b => a * 256 + b) 0

/-- `int.from_bytes(data, byteorder='big', signed=True)`; a fixed-width
big-endian signed `struct.unpack` of the same width gives the same
value. -/
def beS (l : List Nat) : Int :=
  if 2 * beU l ≥ 256 ^ l.length then (beU l : Int) - (256 ^ l.length : Int)
  else (beU l : Int)

/-- UTF-8 continuation byte `0x80..0xBF`. -/
def isUtf8Cont (b : Nat) : Bool := decide (0x80 ≤ b ∧ b ≤ 0xBF)

/-- Strict UTF-8 decoding (`bytes.decode('utf-8')`); `none` models
`UnicodeDecodeError`. -/
def utf8Chars : List Nat → Option (List Char)
  | [] => some []
  | b :: rest =>
    if b < 0x80 then
      (utf8Chars rest).map fun cs => Char.ofNat b :: cs
    else if 0xC2 ≤ b ∧ b ≤ 0xDF then
      match rest with
      | b1 :: rest' =>
        if isUtf8Cont b1 then
          (utf8Chars rest').map fun cs =>
            Char.ofNat ((b - 0xC0) * 0x40 + (b1 - 0x80)) :: cs
        else none
      | [] => none
    else if 0xE0 ≤ b ∧ b ≤ 0xEF then
      match rest with
      | b1 :: b2 :: rest' =>
        if isUtf8Cont b1 ∧ isUtf8Cont b2 ∧
            (b = 0xE0 → 0xA0 ≤ b1) ∧ (b = 0xED → b1 ≤ 0x9F) then
          (utf8Chars rest').map fun cs =>
            Char.ofNat ((b - 0xE0) * 0x1000 + (b1 - 0x80) * 0x40 + (b2 - 0x80)) :: cs
        else none
      | _ => none
    else if 0xF0 ≤ b ∧ b ≤ 0xF4 then
      match rest with
      | b1 :: b2 :: b3 :: rest' =>
        if isUtf8Cont b1 ∧ isUtf8Cont b2 ∧ isUtf8Cont b3 ∧
            (b = 0xF0 → 0x90 ≤ b1) ∧ (b = 0xF4 → b1 ≤ 0x8F) then
          (utf8Chars rest').map fun cs =>
            Char.ofNat ((b - 0xF0) * 0x40000 + (b1 - 0x80) * 0x1000 +
              (b2 - 0x80) * 0x40 + (b3 - 0x80)) :: cs
        else none
      | _ => none
    else none

def utf8Decode (l : List Nat) : Option String :=
  (utf8Chars l).map fun cs => ⟨cs⟩

/-! ## Value codec: `extract_value` (lines 413-511) -/

/-- One element of a BACpypes3 `tagList`.  Such tag objects always carry
`tag_number` and `tag_data` attributes, so the `hasattr` guards of
lines 439 and 446 are identically true in this model. -/
structure BTag where
  tag_number : Nat
  tag_data : List Nat
deriving DecidableEq, Repr

/-- The `.value` attribute of the input, when it exists: either a host
primitive (returned directly, lines 421-424) or some other object
(falls through to the string branch). -/
inductive AttrVal where
  | prim (p : PyVal)
  | other
deriving DecidableEq, Repr

/-- A non-primitive input to `extract_value`, described by the
observations the code makes of it. -/
structure BacnetObj where
  valueAttr : Option AttrVal
  strForm : String
  tagList : Option (List BTag)
deriving DecidableEq, Repr

/-- Any input to `extract_value`: a host primitive (`isinstance` branch,
lines 417-418) or an object. -/
inductive BacnetValue where
  | pint (n : Int)
  | pfloat (f : PyFloat)
  | pbool (b : Bool)
  | obj (o : BacnetObj)
deriving DecidableEq, Repr

/-- Lines 450-485: decode the selected tag.  `Except.error` marks the
raise sites — `struct.error` when the payload width does not fit the
fixed-width unpack of tags 4/5, `UnicodeDecodeError` for invalid UTF-8
in tag 7; both are caught by the enclosing `try` of `extract_value`. -/
def decode_data_tag (t : BTag) : Except String (Option PyVal) :=
  if t.tag_data.isEmpty then .ok none
  else if t.tag_number = 1 then
    .ok (some (.bool (decide (t.tag_data.headD 0 ≠ 0))))
  else if t.tag_number = 2 then
    if t.tag_data.length = 1 then .ok (some (.int (t.tag_data.headD 0 : Int)))
    else if t.tag_data.length = 2 then .ok (some (.int (beU t.tag_data : Int)))
    else if t.tag_data.length = 4 then .ok (some (.int (beU t.tag_data : Int)))
    else .ok (some (.int (beU t.tag_data : Int)))
  else if t.tag_number = 3 then
    if t.tag_data.length = 1 then .ok (some (.int (beS t.tag_data)))
    else if t.tag_data.length = 2 then .ok (some (.int (beS t.tag_data)))
    else if t.tag_data.length = 4 then .ok (some (.int (beS t.tag_data)))
    else .ok (some (.int (beS t.tag_data)))
  else if t.tag_number = 4 then
    if t.tag_data.length = 4 then .ok (some (.float (.ieee32be t.tag_data)))
    else .error "struct.error"
  else if t.tag_number = 5 then
    if t.tag_data.length = 8 then .ok (some (.float (.ieee64be t.tag_data)))
    else .error "struct.error"
  else if t.tag_number = 7 then
    match utf8Decode t.tag_data with
    | some s => .ok (some (.str s))
    | none => .error "UnicodeDecodeError"
  else if t.tag_number = 9 then .ok (some (.int (beU t.tag_data : Int)))
  else .ok none

/-- Lines 489-506: the clean-string fallback, applied to the stripped
string. -/
def string_fallback (c : String) : Option PyVal :=
  match pyParseNumber c with
  | some v => some v
  | none => if c.length < 100 then some (.str c) else none

/-- Body of `extract_value` (lines 413-506) with the raise sites kept as
`Except.error`. -/
def extract_value_body (v : BacnetValue) : Except String (Option PyVal) :=
  match v with
  | .pint n => .ok (some (.int n))
  | .pfloat f => .ok (some (.float f))
  | .pbool b => .ok (some (.bool b))
  | .obj o =>
    match o.valueAttr with
    | some (.prim p) => .ok (some p)
    | _ =>
      if isOpaqueStr o.strForm then
        match o.tagList with
        | some tags =>
          if tags.isEmpty then .ok none
          else
            match tags.find? (fun t => !t.tag_data.isEmpty) with
            | some t => decode_data_tag t
            | none => decode_data_tag (tags.headD ⟨0, []⟩)
        | none => .ok none
      else .ok (string_fallback o.strForm.trim)

/-- The `except Exception` handler result (lines 508-511). -/
def runCaught : Except String (Option PyVal) → Option PyVal
  | .ok r => r
  | .error _ => none

/-- `extract_value` (lines 413-511): body under the catch-all handler. -/
def extract_value (v : BacnetValue) : Option PyVal :=
  runCaught (extract_value_body v)

/-! Spec-side decode contract (§4.1 of the spec), written from the
claim's words, to be compared with `extract_value`. -/

/-- Following the spec's words: the first tag carrying non-empty
`tag_data` determines the value. -/
def spec_first_data_tag (tags : List BTag) : Option BTag :=
  tags.find? (fun t => !t.tag_data.isEmpty)

/-- Following the spec's words (§4.1 table): decode by tag number;
unknown tag numbers are a decode failure. -/
def spec_decode_by_number (n : Nat) (l : List Nat) : Option PyVal :=
  if n = 1 then some (.bool (decide (l.headD 0 ≠ 0)))
  else if n = 2 then some (.int (beU l : Int))
  else if n = 3 then some (.int (beS l))
  else if n = 4 then
    if l.length = 4 then some (.float (.ieee32be l)) else none
  else if n = 5 then
    if l.length = 8 then some (.float (.ieee64be l)) else none
  else if n = 7 then (utf8Decode l).map .str
  else if n = 9 then some (.int (beU l : Int))
  else none

/-- Following the spec's words: decode of a tagged payload; no tag with
data (empty tag data) is a decode failure. -/
def spec_decode_tagged (tags : List BTag) : Option PyVal :=
  match spec_first_data_tag tags with
  | some t => spec_decode_by_number t.tag_number t.tag_data
  | none => none

/-- Following the spec's words: non-object strings — numeric parse
first, the string itself only when shorter than 100 characters, else a
decode failure. -/
def spec_string_fallback (c : String) : Option PyVal :=
  match pyParseNumber c with
  | some v => some v
  | none => if c.length < 100 then some (.str c) else none

lemma beU_singleton (b : Nat) : beU [b] = b := by
  simp [beU, List.foldl]

/-- On a tag with data, the caught decode agrees with the spec table. -/
lemma decode_data_tag_eq_spec (t : BTag) (h : t.tag_data ≠ []) :
    runCaught (decode_data_tag t) =
      spec_decode_by_number t.tag_number t.tag_data := by
  obtain ⟨n, l⟩ := t
  obtain ⟨b, bs, rfl⟩ : ∃ b bs, l = b :: bs := by
    cases l with
    | nil => exact absurd rfl h
    | cons b bs => exact ⟨b, bs, rfl⟩
  simp only [decode_data_tag, spec_decode_by_number, List.isEmpty_cons,
    Bool.false_eq_true, if_false]
  split_ifs <;>
    first
      | (simp_all [runCaught, beU, List.length_eq_zero]; done)
      | (cases hu : utf8Decode (b :: bs) <;> simp_all [runCaught])

/-- C6: on inputs whose `.value` attribute yields no host primitive, the
decoder matches the spec's decode contract — for an opaque object
representation it decodes the first tag carrying non-empty data by the
claim's table (empty tag data and unknown tag numbers fail), and for a
non-object string it tries a numeric parse first and returns the string
itself only when its length is under 100 characters. -/
theorem extract_value_matches_decode_table (o : BacnetObj) (tags : List BTag)
    (hattr : o.valueAttr = none ∨ o.valueAttr = some .other) :
    (isOpaqueStr o.strForm = true → o.tagList = some tags →
      extract_value (.obj o) = spec_decode_tagged tags) ∧
    (isOpaqueStr o.strForm = false →
      extract_value (.obj o) = spec_string_fallback o.strForm.trim) := by
  have hbody : extract_value_body (.obj o) =
      (if isOpaqueStr o.strForm then
        match o.tagList with
        | some tags =>
          if tags.isEmpty then .ok none
          else
            match tags.find? (fun t => !t.tag_data.isEmpty) with
            | some t => decode_data_tag t
            | none => decode_data_tag (tags.headD ⟨0, []⟩)
        | none => .ok none
      else .ok (string_fallback o.strForm.trim)) := by
    rcases hattr with h | h <;> simp [extract_value_body, h]
  constructor
  · intro hop htl
    simp only [extract_value, hbody, hop, if_true, htl]
    cases tags with
    | nil => simp [runCaught, spec_decode_tagged, spec_first_data_tag]
    | cons t ts =>
      simp only [List.isEmpty_cons, Bool.false_eq_true, if_false,
        spec_decode_tagged, spec_first_data_tag]
      cases hf : (t :: ts).find? (fun t => !t.tag_data.isEmpty) with
      | some t' =>
        have hp := List.find?_some hf
        have hne : t'.tag_data ≠ [] := by
          simpa [List.isEmpty_iff] using hp
        simp [decode_data_tag_eq_spec t' hne]
      | none =>
        have hall := List.find?_eq_none.mp hf t (List.mem_cons_self t ts)
        have hempty : t.tag_data = [] := by
          simpa [List.isEmpty_iff] using hall
        simp [runCaught, decode_data_tag, List.headD, hempty]
  · intro hop
    simp only [extract_value, hbody, hop, Bool.false_eq_true, if_false]
    rfl

/-- Concrete opaque input for the codec witness: tag 4 payload
`0x42F60000` (scenario S1). -/
def sampleTaggedObj : BacnetObj :=
  { valueAttr := some .other,
    strForm := "<bacpypes3.primitivedata.Real object at 0x7f2a>",
    tagList := some [⟨4, [66, 246, 0, 0]⟩] }

/-- Witness for C6 at the S1 payload. -/
theorem extract_value_matches_decode_table_witness :
    (sampleTaggedObj.valueAttr = none ∨
      sampleTaggedObj.valueAttr = some .other) ∧
    ((isOpaqueStr sampleTaggedObj.strForm = true →
        sampleTaggedObj.tagList = some [⟨4, [66, 246, 0, 0]⟩] →
        extract_value (.obj sampleTaggedObj) =
          spec_decode_tagged [⟨4, [66, 246, 0, 0]⟩]) ∧
     (isOpaqueStr sampleTaggedObj.strForm = false →
        extract_value (.obj sampleTaggedObj) =
          spec_string_fallback sampleTaggedObj.strForm.trim)) :=
  ⟨Or.inr rfl,
   extract_value_matches_decode_table sampleTaggedObj
     [⟨4, [66, 246, 0, 0]⟩] (Or.inr rfl)⟩

/-- An input on which the body raises (`struct.unpack('>f', …)` on a
3-byte payload). -/
def sampleRaisingInput : BacnetValue :=
  .obj { valueAttr := some .other,
         strForm := "<bacpypes3.primitivedata.Any object at 0x10>",
         tagList := some [⟨4, [1, 2, 3]⟩] }

/-- C9: `extract_value` is total — every internal raise is caught by its
`except Exception` handler and becomes `None`, and every result is
either `None` or a host primitive (`int`, `float`, `bool` or `str`,
the constructors of `PyVal`). -/
theorem extract_value_total (v : BacnetValue)
    (h : ∃ e, extract_value_body v = .error e) :
    extract_value v = none ∧
    ∀ w : BacnetValue, extract_value w = none ∨
      ∃ p : PyVal, extract_value w = some p := by
  obtain ⟨e, he⟩ := h
  refine ⟨by simp [extract_value, he, runCaught], fun w => ?_⟩
  cases hw : extract_value w with
  | none => exact Or.inl rfl
  | some p => exact Or.inr ⟨p, rfl⟩

/-- Witness for C9: the catch is exercised on a real raise site. -/
theorem extract_value_total_witness :
    (∃ e, extract_value_body sampleRaisingInput = .error e) ∧
    (extract_value sampleRaisingInput = none ∧
     ∀ w : BacnetValue, extract_value w = none ∨
       ∃ p : PyVal, extract_value w = some p) :=
  ⟨⟨"struct.error", rfl⟩,
   extract_value_total sampleRaisingInput ⟨"struct.error", rfl⟩⟩

/-! ## Write path: `execute_write_command` (lines 249-311) and
`write_bacnet_value` (lines 513-601) -/

/-- A JSON value arriving in an MQTT write command. -/
inductive JsonVal where
  | null
  | bool (b : Bool)
  | num (q : ℚ)
  | str (s : String)
deriving DecidableEq, Repr

/-- Python truthiness of a JSON-decoded value (`1 if value else 0`). -/
def pyTruthy : JsonVal → Bool
  | .null => false
  | .bool b => b
  | .num q => decide (q ≠ 0)
  | .str s => decide (s ≠ "")

/-- `float(value)`; the `TypeError`/`ValueError` raise sites are
`.error`. -/
def pyFloatFn : JsonVal → Except String ℚ
  | .null => .error "TypeError"
  | .bool b => .ok (if b then 1 else 0)
  | .num q => .ok q
  | .str s =>
    match parseFloatLit s.trim with
    | some q => .ok q
    | none => .error "ValueError"

/-- Truncation toward zero, the behaviour of `int` on a float. -/
def ratTruncate (q : ℚ) : Int := if 0 ≤ q then ⌊q⌋ else ⌈q⌉

/-- `int(value)`; the `TypeError`/`ValueError` raise sites are
`.error`. -/
def pyIntFn : JsonVal → Except String Int
  | .null => .error "TypeError"
  | .bool b => .ok (if b then 1 else 0)
  | .num q => .ok (ratTruncate q)
  | .str s =>
    match parseIntLit s.trim with
    | some n => .ok n
    | none => .error "ValueError"

/-- The BACnet application value the code places on the wire. -/
inductive WireValue where
  | null
  | real (q : ℚ)
  | unsigned (n : Int)
deriving DecidableEq, Repr

/-- Keys of `obj_type_map` in `write_bacnet_value` (lines 526-536). -/
def write_obj_type_map_keys : List String :=
  ["analog-input", "analog-output", "analog-value",
   "binary-input", "binary-output", "binary-value",
   "multi-state-input", "multi-state-output", "multi-state-value"]

/-- Lines 544-561: prepare the wire value.  A missing `objectType`
raises `TypeError` at the `'analog' in object_type` test; conversion
failures raise inside `float`/`int`.  All raises are caught by the
enclosing `try` (lines 598-601), in which case no request is sent. -/
def prepare_write_value (objectType : Option String) (value : JsonVal)
    (release : Bool) : Except String WireValue :=
  if release then .ok .null
  else
    match objectType with
    | none => .error "TypeError"
    | some ot =>
      if strContains ot "analog" = true ∨
          ot ∈ ["multi-state-input", "multi-state-output", "multi-state-value"] then
        if strContains ot "multi-state" = true then
          (pyIntFn value).map .unsigned
        else
          (pyFloatFn value).map .real
      else if strContains ot "binary" = true then
        .ok (.unsigned (if pyTruthy value then 1 else 0))
      else
        (pyFloatFn value).map .real

/-- `write_bacnet_value` up to the point of sending.  Before the value
is prepared, the code builds `Address(f"{device_ip}:{device_port}")`
and `ObjectIdentifier(f"{obj_type_bacnet},{object_instance}")`
(lines 541-542); those constructors raise on malformed input (a bad
`deviceIp`, a missing or garbage `objectType` label, a missing or
negative `objectInstance`), and every raise inside the function is
caught by the handler of lines 598-601, which returns a failure
without sending.  Whether the two constructors accept the interpolated
strings is the BACpypes3 parsing behaviour, passed in as the oracles
`addrOk` / `objIdOk`.  Returns whether a `WritePropertyRequest` was
issued, and with which value. -/
def write_bacnet_value (addrOk objIdOk : Bool) (objectType : Option String)
    (value : JsonVal) (release : Bool) : Bool × Option WireValue :=
  if addrOk = false then (false, none)
  else if objIdOk = false then (false, none)
  else
    match prepare_write_value objectType value release with
    | .ok w => (true, some w)
    | .error _ => (false, none)

/-- A parsed MQTT write command (lines 251-259).  Absent JSON fields
are `none`; the `command.get` defaults (`priority` 8, `release` False)
are applied at the use sites.  `release` stores the truthiness of the
supplied flag. -/
structure WriteCommand where
  jobId : Option String := none
  deviceIp : Option String := none
  deviceId : Option Int := none
  objectType : Option String := none
  objectInstance : Option Int := none
  value : JsonVal := .null
  priority : Option Int := none
  release : Bool := false
  pointName : Option String := none
deriving DecidableEq, Repr

/-- Observable outcome of `execute_write_command` (lines 249-311). -/
structure WriteExec where
  attempted : Bool
  issued : Bool
  wire : Option WireValue
  priorityUsed : Int
deriving DecidableEq, Repr

/-- `execute_write_command`: extracts the fields with their defaults and
invokes `write_bacnet_value` unconditionally — the function contains no
validation step.  The `addrOk` / `objIdOk` oracles are those of
`write_bacnet_value`. -/
def execute_write_command (c : WriteCommand) (addrOk objIdOk : Bool) :
    WriteExec :=
  let r := write_bacnet_value addrOk objIdOk c.objectType c.value c.release
  { attempted := true, issued := r.1, wire := r.2,
    priorityUsed := c.priority.getD 8 }

/-- Following the claim's words (§4.7 step 1): required fields present,
`objectType` in the recognized set, `objectInstance ≥ 0`, `priority`
in 1..16 when provided. -/
def spec_write_valid (c : WriteCommand) : Bool :=
  c.jobId.isSome && c.deviceIp.isSome && c.deviceId.isSome &&
  c.objectType.isSome && c.objectInstance.isSome &&
  (match c.objectType with
   | some ot => decide (ot ∈ write_obj_type_map_keys)
   | none => false) &&
  (match c.objectInstance with
   | some n => decide (0 ≤ n)
   | none => false) &&
  (match c.priority with
   | some p => decide (1 ≤ p ∧ p ≤ 16)
   | none => true)

/-- A command that fails the claim's validation (priority 99) but is
otherwise well-formed. -/
def invalidPriorityCmd : WriteCommand :=
  { jobId := some "j1", deviceIp := some "192.168.1.50",
    deviceId := some 3056496, objectType := some "analog-output",
    objectInstance := some 2, value := .num 1, priority := some 99,
    release := false }

/-- C4 counterexample: a command with `priority = 99` fails the claimed
validation, yet `execute_write_command` issues the `WriteProperty`
(with wire value `Real(1.0)`).  For this command the endpoint is a
well-formed `ip:port` and the object a recognized type with instance 2,
so the `Address`/`ObjectIdentifier` constructors of lines 541-542
accept it: both oracles are `true`. -/
theorem write_validation_counterexample :
    spec_write_valid invalidPriorityCmd = false ∧
    (execute_write_command invalidPriorityCmd true true).issued = true ∧
    (execute_write_command invalidPriorityCmd true true).wire =
      some (.real 1) := by
  refine ⟨by decide, rfl, rfl⟩

/-- C4 amended: the Write Executor performs no validation step.  Every
queued command reaches `write_bacnet_value` (with `priority`
defaulting to 8), and the `priority` field never affects whether the
write is issued; a `WriteProperty` goes out exactly when the
`Address`/`ObjectIdentifier` constructions of lines 541-542 accept the
command's endpoint and object and the value-encoding step succeeds —
a raise at any of those points is caught by the handler of lines
598-601 and stops the write without any validation verdict. -/
theorem write_no_validation_amended (c : WriteCommand)
    (addrOk objIdOk : Bool) (p : Option Int) :
    (execute_write_command { c with priority := p } addrOk objIdOk).issued =
      (execute_write_command c addrOk objIdOk).issued ∧
    (execute_write_command c addrOk objIdOk).attempted = true ∧
    ((execute_write_command c addrOk objIdOk).issued = true ↔
      (addrOk = true ∧ objIdOk = true ∧
       ∃ w, prepare_write_value c.objectType c.value c.release = .ok w)) := by
  refine ⟨rfl, rfl, ?_⟩
  unfold execute_write_command write_bacnet_value
  cases addrOk with
  | false => simp
  | true =>
    cases objIdOk with
    | false => simp
    | true =>
      cases h : prepare_write_value c.objectType c.value c.release <;> simp [h]

/-- C5: encoding contract of `write_bacnet_value` — `analog*` encodes
`Real(float(value))`, `binary*` encodes `Unsigned(1 if truthy else 0)`,
`multiState*` encodes `Unsigned(int(value))`, and `release = true`
encodes `Null` regardless of the value and object type. -/
theorem write_value_encoding (v : JsonVal) :
    (prepare_write_value (some "analog-input") v false =
      (pyFloatFn v).map .real) ∧
    (prepare_write_value (some "analog-output") v false =
      (pyFloatFn v).map .real) ∧
    (prepare_write_value (some "analog-value") v false =
      (pyFloatFn v).map .real) ∧
    (prepare_write_value (some "binary-input") v false =
      .ok (.unsigned (if pyTruthy v then 1 else 0))) ∧
    (prepare_write_value (some "binary-output") v false =
      .ok (.unsigned (if pyTruthy v then 1 else 0))) ∧
    (prepare_write_value (some "binary-value") v false =
      .ok (.unsigned (if pyTruthy v then 1 else 0))) ∧
    (prepare_write_value (some "multi-state-input") v false =
      (pyIntFn v).map .unsigned) ∧
    (prepare_write_value (some "multi-state-output") v false =
      (pyIntFn v).map .unsigned) ∧
    (prepare_write_value (some "multi-state-value") v false =
      (pyIntFn v).map .unsigned) ∧
    ∀ ot : Option String, prepare_write_value ot v true = .ok .null := by
  refine ⟨?_, ?_, ?_, ?_, ?_, ?_, ?_, ?_, ?_, fun ot => rfl⟩ <;> rfl

/-! ## Individual-point publication (`publish_individual_topic`,
lines 603-655) -/

/-- Python falsiness of an optional string (`not point['mqttTopic']`). -/
def strFalsy : Option String → Bool
  | none => true
  | some s => decide (s = "")

/-- The point columns `publish_individual_topic` reads. -/
structure PointView where
  mqttTopic : Option String
  units : Option String
  dis : Option String
  haystackPointName : Option String
  ipAddress : Option String
  deviceId : Option Int
  objectType : Option String
  objectInstance : Option Int
  qos : Nat
deriving DecidableEq, Repr

/-- Lines 620-630: coerce the value for JSON.  Python `bool` is a
subclass of `int`, so the `isinstance(value, (int, float))` branch
catches booleans too and `float(True) = 1.0`; the later `elif bool`
branch is unreachable. -/
def clean_value : PyVal → PyVal
  | .int n => .float (.ofRat n)
  | .bool b => .float (.ofRat (if b then 1 else 0))
  | .float f => .float f
  | .str s => .str s

/-- The JSON payload of an individual-topic publication (lines 632-643). -/
structure PubPayload where
  value : PyVal
  timestamp : String
  units : Option String
  quality : String
  dis : Option String
  haystackName : Option String
  deviceIp : Option String
  deviceId : Option Int
  objectType : Option String
  objectInstance : Option Int
deriving DecidableEq, Repr

/-- `publish_individual_topic` (lines 603-655): `none` when nothing was
published, otherwise the payload published on `point['mqttTopic']`. -/
def publish_individual_topic (pt : PointView) (mqtt_connected : Bool)
    (value : Option PyVal) (timestamp : String) : Option PubPayload :=
  if strFalsy pt.mqttTopic = true ∨ mqtt_connected = false then none
  else
    match value with
    | none => none
    | some v =>
      if (match v with
          | .str s => strContains s "bacpypes3" || strContains s "object at"
          | _ => false) = true then none
      else
        some { value := clean_value v, timestamp := timestamp,
               units := pt.units, quality := "good", dis := pt.dis,
               haystackName := pt.haystackPointName,
               deviceIp := pt.ipAddress, deviceId := pt.deviceId,
               objectType := pt.objectType,
               objectInstance := pt.objectInstance }

/-- A concrete enabled point used by the publication theorems. -/
def samplePoint : PointView :=
  { mqttTopic := some "site/ahu_1/temp/presentValue", units := some "degC",
    dis := some "Temp", haystackPointName := some "site.ahu1.temp",
    ipAddress := some "192.168.1.50", deviceId := some 3056496,
    objectType := some "analog-input", objectInstance := some 7, qos := 1 }

/-- C8 counterexample: a NaN value is published unchanged with quality
`"good"` — not coerced to null, and the quality is not downgraded to
`"uncertain"`. -/
theorem publish_nan_counterexample :
    publish_individual_topic samplePoint true (some (.float .nan))
        "2024-03-01T10:00:00+08:00" =
      some { value := .float .nan, timestamp := "2024-03-01T10:00:00+08:00",
             units := some "degC", quality := "good", dis := some "Temp",
             haystackName := some "site.ahu1.temp",
             deviceIp := some "192.168.1.50", deviceId := some 3056496,
             objectType := some "analog-input", objectInstance := some 7 } ∧
    "good" ≠ "uncertain" :=
  ⟨rfl, by decide⟩

/-- C8 amended: every float value — including NaN and the infinities —
is published as-is with quality `"good"`; no null coercion or quality
downgrade exists in `publish_individual_topic`. -/
theorem publish_float_passthrough (pt : PointView) (ts : String) (f : PyFloat)
    (htopic : strFalsy pt.mqttTopic = false) :
    publish_individual_topic pt true (some (.float f)) ts =
      some { value := .float f, timestamp := ts, units := pt.units,
             quality := "good", dis := pt.dis,
             haystackName := pt.haystackPointName, deviceIp := pt.ipAddress,
             deviceId := pt.deviceId, objectType := pt.objectType,
             objectInstance := pt.objectInstance } := by
  simp [publish_individual_topic, htopic, clean_value]

/-- Witness for the amended C8 at a NaN value. -/
theorem publish_float_passthrough_witness :
    strFalsy samplePoint.mqttTopic = false ∧
    publish_individual_topic samplePoint true (some (.float .nan))
        "2024-03-01T10:00:00+08:00" =
      some { value := .float .nan, timestamp := "2024-03-01T10:00:00+08:00",
             units := samplePoint.units, quality := "good",
             dis := samplePoint.dis,
             haystackName := samplePoint.haystackPointName,
             deviceIp := samplePoint.ipAddress,
             deviceId := samplePoint.deviceId,
             objectType := samplePoint.objectType,
             objectInstance := samplePoint.objectInstance } :=
  ⟨rfl, publish_float_passthrough samplePoint "2024-03-01T10:00:00+08:00"
    .nan rfl⟩

/-! ## Sink bridge (`src/telegraf/mqtt_to_timescaledb.py`) -/

/-- De-duplication key `(haystack_name, timestamp_second)` (line 152). -/
abbrev DedupKey := Option String × Option String

/-- The payload fields the dedup logic reads. -/
structure SinkMsg where
  haystackName : Option String
  timestamp : Option String
deriving DecidableEq, Repr

/-- Line 151: `timestamp[:19] if timestamp and len(timestamp) >= 19
else timestamp`.  (An empty-string timestamp is falsy and is returned
unchanged, which coincides with the length test.) -/
def truncToSecond : Option String → Option String
  | none => none
  | some s => if 19 ≤ s.length then some (s.take 19) else some s

def dedupKey (m : SinkMsg) : DedupKey :=
  (m.haystackName, truncToSecond m.timestamp)

/-- Sink bridge state: the `seen_messages` dict keys in insertion
order, the keys for which `insert_sensor_reading` was called, and the
keys whose `INSERT` actually succeeded. -/
structure SinkState where
  seen : List DedupKey
  attempts : List DedupKey
  rows : List DedupKey
deriving DecidableEq, Repr

def SinkState.initial : SinkState := ⟨[], [], []⟩

/-- `on_message` (lines 130-199) for one message.  `insertOk` abstracts
whether the `INSERT` of `insert_sensor_reading` (lines 201-233)
succeeds; on failure that function catches the exception and does not
re-raise (lines 229-233), so the state is otherwise unaffected.
Duplicate keys return early (lines 153-156); a new key is recorded in
`seen_messages` (line 159) before the insert (line 187), and when the
dict grows past 1000 entries the 100 oldest keys are popped in
insertion order (lines 160-163). -/
def on_message (st : SinkState) (m : SinkMsg) (insertOk : Bool) : SinkState :=
  let k := dedupKey m
  if k ∈ st.seen then st
  else
    let seen1 := st.seen ++ [k]
    let seen2 := if 1000 < seen1.length then seen1.drop 100 else seen1
    { seen := seen2,
      attempts := st.attempts ++ [k],
      rows := if insertOk then st.rows ++ [k] else st.rows }

/-- Process a message stream from the empty state. -/
def sinkRun (msgs : List (SinkMsg × Bool)) : SinkState :=
  msgs.foldl (fun st p => on_message st p.1 p.2) SinkState.initial

/-- Number of distinct dedup keys in the stream not already in `seen`,
in arrival order. -/
def newKeyCount (seen : List DedupKey) : List (SinkMsg × Bool) → Nat
  | [] => 0
  | p :: rest =>
    if dedupKey p.1 ∈ seen then newKeyCount seen rest
    else newKeyCount (seen ++ [dedupKey p.1]) rest + 1

/-- Invariant of the sink fold: while the total number of distinct keys
stays within 1000 no eviction fires, the seen list stays duplicate-free
and equals the attempted inserts, and the stored rows form a sublist of
the attempts. -/
lemma sink_fold_inv (msgs : List (SinkMsg × Bool)) :
    ∀ st : SinkState, st.seen.Nodup → st.attempts = st.seen →
      st.rows.Sublist st.attempts →
      st.seen.length + newKeyCount st.seen msgs ≤ 1000 →
      ((msgs.foldl (fun t p => on_message t p.1 p.2) st).seen.Nodup ∧
       (msgs.foldl (fun t p => on_message t p.1 p.2) st).attempts =
         (msgs.foldl (fun t p => on_message t p.1 p.2) st).seen ∧
       (msgs.foldl (fun t p => on_message t p.1 p.2) st).rows.Sublist
         (msgs.foldl (fun t p => on_message t p.1 p.2) st).attempts) := by
  induction msgs with
  | nil => intro st h1 h2 h3 _; exact ⟨h1, h2, h3⟩
  | cons p rest ih =>
    intro st h1 h2 h3 h4
    simp only [List.foldl_cons]
    by_cases hk : dedupKey p.1 ∈ st.seen
    · have hstep : on_message st p.1 p.2 = st := by
        simp [on_message, hk]
      rw [hstep]
      refine ih st h1 h2 h3 ?_
      simpa [newKeyCount, hk] using h4
    · have hcount : st.seen.length +
          (newKeyCount (st.seen ++ [dedupKey p.1]) rest + 1) ≤ 1000 := by
        simpa [newKeyCount, hk] using h4
      have hlen : ¬ 1000 < st.seen.length + 1 := by omega
      have hstep : on_message st p.1 p.2 =
          { seen := st.seen ++ [dedupKey p.1],
            attempts := st.attempts ++ [dedupKey p.1],
            rows := if p.2 then st.rows ++ [dedupKey p.1] else st.rows } := by
        simp [on_message, hk, hlen]
      rw [hstep]
      refine ih _ ?_ ?_ ?_ ?_
      · rw [List.nodup_append]
        exact ⟨h1, List.nodup_singleton _, by
          simpa [List.disjoint_singleton] using hk⟩
      · simp [h2]
      · split
        · exact h3.append (List.Sublist.refl _)
        · exact h3.trans (List.sublist_append_left _ _)
      · simp only [List.length_append, List.length_cons, List.length_nil]
        omega

/-- Occurrences of a key in a list of keys. -/
def keyCount (k : DedupKey) (l : List DedupKey) : Nat :=
  (l.filter fun x => decide (x = k)).length

lemma keyCount_le_one_of_nodup (k : DedupKey) :
    ∀ l : List DedupKey, l.Nodup → keyCount k l ≤ 1 := by
  intro l
  induction l with
  | nil => intro _; simp [keyCount]
  | cons a t ih =>
    intro h
    obtain ⟨hat, ht⟩ := List.nodup_cons.mp h
    by_cases hak : a = k
    · subst hak
      have hzero : t.filter (fun x => decide (x = a)) = [] := by
        rw [List.filter_eq_nil_iff]
        intro b hb
        simp only [decide_eq_true_eq]
        exact fun hba => hat (hba ▸ hb)
      simp [keyCount, List.filter_cons, hzero]
    · have := ih ht
      simpa [keyCount, List.filter_cons, hak] using this

lemma keyCount_sublist_le (k : DedupKey) {l₁ l₂ : List DedupKey}
    (h : l₁.Sublist l₂) : keyCount k l₁ ≤ keyCount k l₂ :=
  (h.filter _).length_le

/-- C7: for a stream prefix with at most 1000 distinct dedup keys, the
sink attempts (and stores) at most one row per key; and whenever a new
key arrives with the window already holding 1000 keys, the window
becomes the old one with its 100 oldest (front) entries dropped plus
the new key — a FIFO eviction of exactly 100 keys. -/
theorem sink_dedup_law (msgs : List (SinkMsg × Bool))
    (h : newKeyCount [] msgs ≤ 1000) :
    (∀ k : DedupKey, keyCount k (sinkRun msgs).attempts ≤ 1 ∧
       keyCount k (sinkRun msgs).rows ≤ 1) ∧
    ∀ (st : SinkState) (m : SinkMsg) (ok : Bool),
      dedupKey m ∉ st.seen → st.seen.length = 1000 →
      (on_message st m ok).seen = st.seen.drop 100 ++ [dedupKey m] := by
  constructor
  · intro k
    have hinv := sink_fold_inv msgs SinkState.initial
      (by simp [SinkState.initial]) rfl
      (by simp [SinkState.initial])
      (by simpa [SinkState.initial] using h)
    obtain ⟨hnd, hatt, hsub⟩ := hinv
    have h1 : keyCount k (sinkRun msgs).attempts ≤ 1 := by
      have hle := keyCount_le_one_of_nodup k _ hnd
      rw [sinkRun, hatt]
      exact hle
    exact ⟨h1, le_trans (keyCount_sublist_le k hsub) h1⟩
  · intro st m ok hk hlen
    have hgt : 1000 < st.seen.length + 1 := by omega
    have hdrop : (st.seen ++ [dedupKey m]).drop 100 =
        st.seen.drop 100 ++ [dedupKey m] :=
      List.drop_append_of_le_length (by omega)
    simp [on_message, hk, hgt, hdrop]

/-- The S4 stream: two messages with the same haystack name whose
timestamps agree after second truncation. -/
def sampleStream : List (SinkMsg × Bool) :=
  [(⟨some "site.ahu1.temp", some "2024-03-01T10:00:00.123Z"⟩, true),
   (⟨some "site.ahu1.temp", some "2024-03-01T10:00:00.987Z"⟩, true)]

set_option maxRecDepth 4000 in
/-- Witness for C7 on the S4 stream. -/
theorem sink_dedup_law_witness :
    newKeyCount [] sampleStream ≤ 1000 ∧
    ((∀ k : DedupKey, keyCount k (sinkRun sampleStream).attempts ≤ 1 ∧
        keyCount k (sinkRun sampleStream).rows ≤ 1) ∧
     ∀ (st : SinkState) (m : SinkMsg) (ok : Bool),
       dedupKey m ∉ st.seen → st.seen.length = 1000 →
       (on_message st m ok).seen = st.seen.drop 100 ++ [dedupKey m]) :=
  ⟨by decide, sink_dedup_law sampleStream (by decide)⟩

/-- C10: a new key is recorded in the seen window before the insert is
attempted, and a failing insert is swallowed — the attempt is made, no
row is stored, and the key stays in the window; any message whose key
is in the window is dropped entirely, so the failed reading is never
retried while its key remains in the window. -/
theorem sink_failed_insert_dropped (st : SinkState) (m : SinkMsg)
    (hnew : dedupKey m ∉ st.seen) :
    dedupKey m ∈ (on_message st m false).seen ∧
    (on_message st m false).rows = st.rows ∧
    (on_message st m false).attempts = st.attempts ++ [dedupKey m] ∧
    ∀ (st2 : SinkState) (m2 : SinkMsg) (ok : Bool),
      dedupKey m2 ∈ st2.seen → on_message st2 m2 ok = st2 := by
  refine ⟨?_, by simp [on_message, hnew], by simp [on_message, hnew],
    fun st2 m2 ok hk => by simp [on_message, hk]⟩
  simp only [on_message, hnew, if_neg, if_false]
  split
  case isTrue hgt =>
    have hlen : 100 ≤ st.seen.length := by
      simp only [List.length_append, List.length_cons, List.length_nil] at hgt
      omega
    rw [List.drop_append_of_le_length hlen]
    simp
  case isFalse hgt => simp

/-- Witness for C10 at a fresh key in the empty window. -/
theorem sink_failed_insert_dropped_witness :
    dedupKey ⟨some "site.ahu1.temp", some "2024-03-01T10:00:00.123Z"⟩ ∉
      SinkState.initial.seen ∧
    (dedupKey ⟨some "site.ahu1.temp", some "2024-03-01T10:00:00.123Z"⟩ ∈
      (on_message SinkState.initial
        ⟨some "site.ahu1.temp", some "2024-03-01T10:00:00.123Z"⟩ false).seen ∧
     (on_message SinkState.initial
        ⟨some "site.ahu1.temp", some "2024-03-01T10:00:00.123Z"⟩ false).rows =
       SinkState.initial.rows ∧
     (on_message SinkState.initial
        ⟨some "site.ahu1.temp", some "2024-03-01T10:00:00.123Z"⟩ false).attempts =
       SinkState.initial.attempts ++
         [dedupKey ⟨some "site.ahu1.temp", some "2024-03-01T10:00:00.123Z"⟩] ∧
     ∀ (st2 : SinkState) (m2 : SinkMsg) (ok : Bool),
       dedupKey m2 ∈ st2.seen → on_message st2 m2 ok = st2) :=
  ⟨by decide, sink_failed_insert_dropped SinkState.initial
    ⟨some "site.ahu1.temp", some "2024-03-01T10:00:00.123Z"⟩ (by decide)⟩

end BacPipes
